import Mathlib

/-!
Shallow embedding of `src/pyNomad/Capsules/ResilientNomad.py` (classes `Nomad`
and `CampaignExecutorNomad`) together with the pieces of
`src/pyNomad/Capsules/Monads.py` (class `Monad`, whose `__rshift__` /
`__lshift__` delegate to `build_path`) that the chain operations use.

Modelling conventions:
* Python payload values are modelled by `Val` (integers, strings, and the
  coroutine objects that arise when an `async def` method is called without
  being awaited).  Values are immutable in the model, so `copy.deepcopy` is
  the identity.
* A Python exception is a `PyErr` (class + message).  Every exception class
  that the modelled code can raise derives from `Exception` in Python; this
  is recorded by `PyExnClass.isException`.
* A step (a function bound into the chain) is a `Step`: a name
  (`func.__name__`) plus a map from the current value to either a result
  value or a raised exception.  `asyncio.iscoroutinefunction` only selects
  whether `func(self.value)` is awaited; both branches deliver the same
  result/exception, so a single `run` field covers both.
* Each method call on the mutable `self` is translated as a `CallResult`:
  the fields of `self` after the call (`state`) and the exception that
  propagated to the caller, if any (`raised`).  Because `self` is mutated in
  place, the caller still observes the mutated state even when the call
  raises.  Line 211 of build_path, `compile = compile`, makes `compile` a
  local name for the whole function scope, so its right-hand side reads an
  unbound local and every awaited `build_path` call raises
  `UnboundLocalError` before its `try` block: in `build_path` the entire
  try/except body is dead code, and only `bind_task` (which has no such
  line) ever executes it.
* `hashlib.sha256(str(value).encode()).hexdigest()` is modelled as an ideal
  (collision-free) digest of the serialised string: the digest function is
  taken to be injective on strings, so digest equality is exactly equality
  of the `str` serialisations.
-/

/-- Python exception classes raised or caught in the modelled code:
`ZeroDivisionError` (caught by the first `except` clause of `bind_task`),
`AssertionError` (raised by the `assert` in `check`), `TypeError` (caught by
`alternate_bind`), `UnboundLocalError` (raised by the `compile = compile`
line of `build_path`), and a catch-all for other `Exception` subclasses a
user step may raise. -/
inductive PyExnClass where
  | zeroDivisionError : PyExnClass
  | assertionError : PyExnClass
  | typeError : PyExnClass
  | unboundLocalError : PyExnClass
  | otherError : PyExnClass
deriving DecidableEq

/-- Every exception class in the model is a subclass of Python's `Exception`
(none of them is a bare `BaseException` such as `KeyboardInterrupt`), hence
all of them are caught by an `except Exception` clause.  Note that
`UnboundLocalError` subclasses `NameError`, not `TypeError`, so the
`except TypeError` clause of `alternate_bind` does not catch it. -/
def PyExnClass.isException : PyExnClass → Bool
  | .zeroDivisionError => true
  | .assertionError => true
  | .typeError => true
  | .unboundLocalError => true
  | .otherError => true

/-- A raised Python exception: its class and its message. -/
structure PyErr where
  cls : PyExnClass
  msg : String
deriving DecidableEq

/-- Payload values carried by the chain.  `coroutine` stands for the
coroutine object produced when the async method `build_path` is called
without `await` (as `Monad.__rshift__` does inside `retry`). -/
inductive Val where
  | int : Int → Val
  | str : String → Val
  | coroutine : Val
deriving DecidableEq

/-- Python `str()` of a payload value, the canonical serialisation fed to
`sign`.  `str` of an `int` is its decimal form, `str` of a `str` is itself.
The `repr` of a coroutine object also carries a memory address; no theorem
below depends on the string of a coroutine, so the address is omitted. -/
def pyStr : Val → String
  | .int n => toString n
  | .str s => s
  | .coroutine => "<coroutine object CampaignExecutorNomad.build_path>"

/-- Model of `hashlib.sha256(s.encode()).hexdigest()` as an ideal
collision-free digest: injective on strings, so it is represented by the
identity embedding of the serialised string. -/
def sha256Hex (s : String) : String := s

/-- CampaignExecutorNomad.sign (lines 178-183): digest of `str(value)`. -/
def sign (value : Val) : String := sha256Hex (pyStr value)

/-- A function bound into the chain: its `__name__` and its behaviour on a
value (normal return or raised exception). -/
structure Step where
  name : String
  run : Val → Except PyErr Val

/-- The mutable state of a `CampaignExecutorNomad` instance: `self.value`,
`self.signature`, `self.error` and `self.call_graph` (a list of the bound
function objects, in append order). -/
structure Chain where
  value : Val
  signature : String
  error : Option PyErr
  call_graph : List Step

/-- Nomad.__init__ (lines 55-75): `call_graph = []`, `error = None`,
`signature = self.sign(value)`, `value = copy.deepcopy(value)` (deepcopy is
the identity on the immutable model values). -/
def Nomad.init (value : Val) : Chain :=
  { value := value
  , signature := sign value
  , error := none
  , call_graph := [] }

/-- The exception raised by the failing `assert` in `check` (line 227). -/
def corruptionErr : PyErr :=
  { cls := .assertionError, msg := "Value corruption detected" }

/-- The exception raised by line 211 of build_path, `compile = compile`:
because `compile` is assigned somewhere in the function body, Python treats
it as a local name throughout the scope, and reading it on the right-hand
side before any assignment raises `UnboundLocalError`. -/
def unboundLocalErr : PyErr :=
  { cls := .unboundLocalError
  , msg := "local variable compile referenced before assignment" }

/-- CampaignExecutorNomad.check (lines 226-227):
`assert self.sign(value) == signature, "Value corruption detected"`;
a mismatch raises `AssertionError`. -/
def check (value : Val) (signature : String) : Except PyErr Unit :=
  if sign value = signature then .ok () else .error corruptionErr

/-- The `lambda x: 0` passed as the alternative strategy on the
`ZeroDivisionError` path of `bind_task` (line 199; the corresponding
build_path line 221 is dead code behind the compile line). -/
def zeroFallback : Step :=
  { name := "<lambda>", run := fun _ => .ok (.int 0) }

/-- CampaignExecutorNomad.retry (lines 233-243).  `self >> func` resolves to
`Monad.__rshift__` (Monads.py line 49), which returns `self.build_path(func)`
WITHOUT awaiting it; since `CampaignExecutorNomad.build_path` is an
`async def`, this merely constructs a coroutine object and performs no chain
mutation (the coroutine body, and hence its `UnboundLocalError`, never runs
unless awaited).  Constructing a coroutine cannot raise, so the `except`
branch of `retry` is unreachable and `retry` returns the coroutine object
with the chain state untouched. -/
def retry (c : Chain) (func alternative : Step) : Chain × Val :=
  (c, Val.coroutine)

/-- Outcome of one method call on the mutable `self`: the fields of `self`
after the call, plus the exception that propagated to the caller, if any.
The caller can still observe `state` after catching a propagated exception,
because the method mutates the same object in place. -/
structure CallResult where
  state : Chain
  raised : Option PyErr

/-- The `try` block of `bind_task` (lines 190-195): run `func` on
`self.value`, assign the result to `self.value`, then
`self.check(self.value, self.signature)`.  A raised exception is paired with
the chain state at the moment of the raise (`self` is mutated in place, so
the assignment to `value` persists when only the later `check` fails).
Textually the same block appears in build_path (lines 212-217), but there it
is dead code behind the compile line. -/
def try_body (c : Chain) (func : Step) : Except (Chain × PyErr) Chain :=
  match func.run c.value with
  | .error e => .error (c, e)
  | .ok v =>
    let c2 := { c with value := v }
    match check c2.value c2.signature with
    | .ok _ => .ok c2
    | .error e => .error (c2, e)

/-- The two `except` clauses of `bind_task` (lines 196-202):
`except ZeroDivisionError` sets `self.value = self.retry(func, lambda x: 0)`
(the un-awaited coroutine, see `retry`); `except Exception as e` sets
`self.error = e`.  An exception whose class is not an `Exception` subclass
would propagate; `PyExnClass.isException` shows this branch is dead. -/
def handle_clauses (func : Step) : Chain × PyErr → CallResult
  | (c, e) =>
    if e.cls = .zeroDivisionError then
      { state := { c with value := (retry c func zeroFallback).2 }, raised := none }
    else if e.cls.isException then
      { state := { c with error := some e }, raised := none }
    else
      { state := c, raised := some e }

/-- The try/except body executed by `bind_task` after its call-graph
append: the `try` block followed by the `except` clauses. -/
def step_core (c : Chain) (func : Step) : CallResult :=
  match try_body c func with
  | .ok c' => { state := c', raised := none }
  | .error p => handle_clauses func p

/-- CampaignExecutorNomad.build_path (lines 205-224), as awaited:
`self.call_graph.append(func)` (line 209), then line 211 `compile = compile`
raises `UnboundLocalError` (see `unboundLocalErr`) before the `try` block is
entered.  The step, the check and both except clauses below line 211 are
therefore dead code, and the exception propagates to the caller with only
the call-graph append performed — `value`, `signature` and `error` are never
touched by build_path. -/
def build_pathE (c : Chain) (func : Step) : CallResult :=
  { state := { c with call_graph := c.call_graph ++ [func] }
  , raised := some unboundLocalErr }

/-- State of the chain object after a `build_path` call (observable by a
caller that catches the propagated `UnboundLocalError`, since the method
mutated `self` in place before raising). -/
def build_path (c : Chain) (func : Step) : Chain :=
  (build_pathE c func).state

/-- CampaignExecutorNomad.bind_task (lines 185-203), as awaited: it appends
the `NomadTask` argument (not `func`) to the call graph and then — having no
compile line — actually executes the try/except body on `func`. -/
def bind_taskE (c : Chain) (func task : Step) : CallResult :=
  step_core { c with call_graph := c.call_graph ++ [task] } func

/-- State of the chain object after a `bind_task` call (`bind_task` never
raises, see `bind_taskE_returns`). -/
def bind_task (c : Chain) (func task : Step) : Chain :=
  (bind_taskE c func task).state

/-- CampaignExecutorNomad.__lshift__ (lines 229-231):
`self.call_graph.append(other)` and then `asyncio.run(self.build_path(other))`
— so `other` is appended twice, once here and once inside `build_path`,
after which `asyncio.run` re-raises build_path's `UnboundLocalError` to the
caller. -/
def lshiftE (c : Chain) (other : Step) : CallResult :=
  build_pathE { c with call_graph := c.call_graph ++ [other] } other

/-- State of the chain object after a `__lshift__` call. -/
def lshift (c : Chain) (other : Step) : Chain :=
  (lshiftE c other).state

/-- CampaignExecutorNomad.alternate_bind (lines 259-272):
`return await self.build_path(func)` inside `try`.  The awaited build_path
raises `UnboundLocalError`, which is a `NameError` subclass, so the
`except TypeError` clause does not match and the exception propagates out of
alternate_bind with `error` and `value` untouched; `alternative` and `final`
are never executed.  The `TypeError` branch (awaiting
`self.retry(func, alternative)`, with a `finally` that returns
`await self.build_path(final)`) is unreachable; the intermediate retry state
in that dead branch (retry leaves the chain unchanged) is elided. -/
def alternate_bindE (c : Chain) (func alternative final : Step) : CallResult :=
  let r := build_pathE c func
  match r.raised with
  | none => r
  | some e =>
    if e.cls = .typeError then
      build_pathE r.state final
    else r

/-- State of the chain object after an `alternate_bind` call. -/
def alternate_bind (c : Chain) (func alternative final : Step) : Chain :=
  (alternate_bindE c func alternative final).state

/-- Model of Python `str(self.call_graph)` for the snapshot returned by
`unwrap`: the bracketed, comma-separated reprs of the bound functions
(memory addresses omitted, as for `Val.coroutine`). -/
def strCallGraph (g : List Step) : String :=
  "[" ++ String.intercalate ", " (g.map (fun s => "<function " ++ s.name ++ ">")) ++ "]"

/-- CampaignExecutorNomad.unwrap (lines 245-246), with raising made explicit:
the body `return self.value, self.error, str(self.call_graph)` contains no
operation that can raise, so the result is always `.ok` of the triple. -/
def unwrapE (c : Chain) : Except PyErr (Val × Option PyErr × String) :=
  .ok (c.value, c.error, strCallGraph c.call_graph)

/-- Plain form of `unwrap`: the returned triple. -/
def unwrap (c : Chain) : Val × Option PyErr × String :=
  (c.value, c.error, strCallGraph c.call_graph)

/-- One user-level call on the chain, for reasoning about call sequences. -/
inductive Op where
  | bp : Step → Op
  | bt : Step → Step → Op
  | ls : Step → Op
  | ab : Step → Step → Step → Op
  | rt : Step → Step → Op

/-- The state of the chain object after one call.  When the call raises
(`build_path`, `__lshift__`, `alternate_bind` all propagate
`UnboundLocalError`), the caller observes the exception but the same chain
object remains usable, mutated exactly as far as the method got; a bare
`retry` call returns the un-awaited coroutine and changes nothing. -/
def applyOp (c : Chain) : Op → Chain
  | .bp f => build_path c f
  | .bt f t => bind_task c f t
  | .ls f => lshift c f
  | .ab f a fin => alternate_bind c f a fin
  | .rt f a => (retry c f a).1

/-- Apply a sequence of calls, left to right. -/
def applyOps (c : Chain) : List Op → Chain
  | [] => c
  | op :: ops => applyOps (applyOp c op) ops

/-- How many entries one call appends to `call_graph` (in each case before
any exception propagates): `__lshift__` appends two (its own append plus the
one in `build_path`), a bare `retry` appends none (the coroutine body never
runs), each other call appends one. -/
def opCount : Op → Nat
  | .bp _ => 1
  | .bt _ _ => 1
  | .ls _ => 2
  | .ab _ _ _ => 1
  | .rt _ _ => 0

/-- Boolean observation of whether a call returned normally (did not let an
exception propagate to its caller). -/
def returnsNormally (r : CallResult) : Bool :=
  match r.raised with
  | none => true
  | some _ => false

/-! Concrete steps used in the scenario evaluations. -/

/-- The step `lambda x: x + 1` on integers (raises `TypeError` for operands
`int` does not support). -/
def incStep : Step :=
  { name := "inc"
  , run := fun v => match v with
      | .int n => .ok (.int (n + 1))
      | _ => .error { cls := .typeError, msg := "unsupported operand" } }

/-- The step `lambda x: x + 5` on integers. -/
def add5Step : Step :=
  { name := "add5"
  , run := fun v => match v with
      | .int n => .ok (.int (n + 5))
      | _ => .error { cls := .typeError, msg := "unsupported operand" } }

/-- A step that always raises `TypeError`. -/
def typeErrStep : Step :=
  { name := "bad", run := fun _ => .error { cls := .typeError, msg := "bad operand type" } }

/-- The step `lambda x: x / 0`: always raises `ZeroDivisionError`. -/
def div0Step : Step :=
  { name := "div0", run := fun _ => .error { cls := .zeroDivisionError, msg := "division by zero" } }

/-- A step that raises a failure kind no policy recognises. -/
def boomStep : Step :=
  { name := "boom", run := fun _ => .error { cls := .otherError, msg := "boom" } }

/-- The step `lambda x: 99`. -/
def const99Step : Step :=
  { name := "final99", run := fun _ => .ok (.int 99) }

/-- A side-effect-only task object passed as the `NomadTask` argument of
`bind_task` (only its identity is appended to the call graph). -/
def printTask : Step :=
  { name := "PrintSynch", run := fun v => .ok v }

/-! Characterisation lemmas for the step-application core. -/

/-- Every modelled exception class is an `Exception` subclass. -/
theorem PyExnClass.isException_eq_true (k : PyExnClass) : k.isException = true := by
  cases k <;> rfl

/-- Case analysis of the try/except body executed by `bind_task`: a
successful run with a matching digest updates `value`; a successful run with
a mismatching digest updates `value` and stores the `AssertionError` from
`check` into `error`; a raised `ZeroDivisionError` replaces `value` by the
un-awaited coroutine from `retry`; any other raised exception is stored into
`error`.  No branch lets an exception propagate. -/
theorem step_core_eq (c : Chain) (f : Step) :
    step_core c f =
      match f.run c.value with
      | .ok v =>
        if sign v = c.signature then { state := { c with value := v }, raised := none }
        else { state := { c with value := v, error := some corruptionErr }, raised := none }
      | .error e =>
        if e.cls = .zeroDivisionError then
          { state := { c with value := Val.coroutine }, raised := none }
        else { state := { c with error := some e }, raised := none } := by
  unfold step_core try_body
  cases hrun : f.run c.value with
  | error e =>
    simp only [handle_clauses, retry]
    by_cases hz : e.cls = PyExnClass.zeroDivisionError
    · simp [hz]
    · simp [hz, PyExnClass.isException_eq_true]
  | ok v =>
    simp only [check]
    by_cases hs : sign v = c.signature
    · simp [hs]
    · simp [hs, handle_clauses, corruptionErr, PyExnClass.isException]

/-- The try/except body never lets an exception escape. -/
theorem step_core_returns (c : Chain) (f : Step) :
    returnsNormally (step_core c f) = true := by
  rw [step_core_eq]
  cases hrun : f.run c.value with
  | ok v =>
    by_cases hs : sign v = c.signature <;> simp [hs, returnsNormally]
  | error e =>
    by_cases hz : e.cls = PyExnClass.zeroDivisionError <;> simp [hz, returnsNormally]

/-- bind_task never lets an exception escape to its caller. -/
theorem bind_taskE_returns (c : Chain) (f t : Step) :
    returnsNormally (bind_taskE c f t) = true :=
  step_core_returns _ f

/-- bind_task on a successful step run whose result still matches the
stored digest: the value is updated, nothing else (beyond the call-graph
append of the task) changes, and the call returns normally. -/
theorem bind_taskE_of_sig_eq (c : Chain) (f t : Step) (v : Val)
    (hrun : f.run c.value = .ok v) (hsig : sign v = c.signature) :
    bind_taskE c f t =
      { state := { c with value := v, call_graph := c.call_graph ++ [t] }
      , raised := none } := by
  unfold bind_taskE
  rw [step_core_eq]
  simp [hrun, hsig]

/-- bind_task on a successful step run whose result no longer matches the
stored digest: the step result is assigned to `value`, then the
`AssertionError` raised by `check` is caught by `except Exception` and
stored into `error`; the call still returns normally. -/
theorem bind_taskE_of_sig_ne (c : Chain) (f t : Step) (v : Val)
    (hrun : f.run c.value = .ok v) (hsig : sign v ≠ c.signature) :
    bind_taskE c f t =
      { state := { c with value := v, error := some corruptionErr,
                             call_graph := c.call_graph ++ [t] }
      , raised := none } := by
  unfold bind_taskE
  rw [step_core_eq]
  simp [hrun, hsig]

/-- bind_task on a step that raises `ZeroDivisionError`: `error` is left
alone and `value` becomes the un-awaited coroutine returned by `retry`. -/
theorem bind_taskE_of_zeroDiv (c : Chain) (f t : Step) (e : PyErr)
    (hrun : f.run c.value = .error e)
    (hcls : e.cls = PyExnClass.zeroDivisionError) :
    bind_taskE c f t =
      { state := { c with value := Val.coroutine,
                             call_graph := c.call_graph ++ [t] }
      , raised := none } := by
  unfold bind_taskE
  rw [step_core_eq]
  simp [hrun, hcls]

/-- bind_task on a step that raises any exception other than
`ZeroDivisionError`: the exception is stored into `error` and `value` is
left unchanged. -/
theorem bind_taskE_of_raise (c : Chain) (f t : Step) (e : PyErr)
    (hrun : f.run c.value = .error e)
    (hcls : e.cls ≠ PyExnClass.zeroDivisionError) :
    bind_taskE c f t =
      { state := { c with error := some e,
                             call_graph := c.call_graph ++ [t] }
      , raised := none } := by
  unfold bind_taskE
  rw [step_core_eq]
  simp [hrun, hcls]

/-- build_path appends the function and raises `UnboundLocalError`, leaving
`value`, `signature` and `error` untouched. -/
theorem build_pathE_raises (c : Chain) (f : Step) :
    build_pathE c f =
      { state := { c with call_graph := c.call_graph ++ [f] }
      , raised := some unboundLocalErr } :=
  rfl

/-- alternate_bind appends the primary function via build_path and then
propagates build_path's `UnboundLocalError`: the exception class is not
`TypeError`, so the recovery branch never runs. -/
theorem alternate_bindE_raises (c : Chain) (f a fin : Step) :
    alternate_bindE c f a fin =
      { state := { c with call_graph := c.call_graph ++ [f] }
      , raised := some unboundLocalErr } := by
  unfold alternate_bindE
  simp [build_pathE, unboundLocalErr]

/-- Every branch of the try/except body appends nothing further to the call
graph and keeps the stored signature. -/
theorem step_core_preserves (c : Chain) (f : Step) :
    (step_core c f).state.call_graph = c.call_graph ∧
    (step_core c f).state.signature = c.signature := by
  rw [step_core_eq]
  cases hrun : f.run c.value with
  | ok v => by_cases hs : sign v = c.signature <;> simp [hs]
  | error e => by_cases hz : e.cls = PyExnClass.zeroDivisionError <;> simp [hz]

/-- bind_task appends exactly one call-graph entry (the task, not the
function) and keeps the stored signature. -/
theorem bind_task_call_graph_signature (c : Chain) (f t : Step) :
    (bind_task c f t).call_graph = c.call_graph ++ [t] ∧
    (bind_task c f t).signature = c.signature := by
  have h := step_core_preserves { c with call_graph := c.call_graph ++ [t] } f
  exact ⟨h.1, h.2⟩

/-- Call-graph growth of a single user-level call, matching `opCount`. -/
theorem applyOp_call_graph_length (c : Chain) (op : Op) :
    (applyOp c op).call_graph.length = c.call_graph.length + opCount op := by
  cases op with
  | bp f =>
    simp [applyOp, build_path, build_pathE, opCount]
  | bt f t =>
    simp [applyOp, opCount, (bind_task_call_graph_signature c f t).1]
  | ls f =>
    simp [applyOp, lshift, lshiftE, build_path, build_pathE, opCount]
  | ab f a fin =>
    simp [applyOp, alternate_bind, alternate_bindE_raises, opCount]
  | rt f a =>
    simp [applyOp, retry, opCount]

/-- No user-level call ever reassigns the stored signature. -/
theorem applyOp_signature (c : Chain) (op : Op) :
    (applyOp c op).signature = c.signature := by
  cases op with
  | bp f => rfl
  | bt f t => exact (bind_task_call_graph_signature c f t).2
  | ls f => rfl
  | ab f a fin =>
    show (alternate_bindE c f a fin).state.signature = c.signature
    rw [alternate_bindE_raises]
  | rt f a => rfl

/-- Call-graph growth over a sequence of user-level calls. -/
theorem applyOps_call_graph_length (ops : List Op) (c : Chain) :
    (applyOps c ops).call_graph.length =
      c.call_graph.length + (ops.map opCount).sum := by
  induction ops generalizing c with
  | nil => simp [applyOps]
  | cons op ops ih =>
    rw [applyOps, ih, applyOp_call_graph_length]
    simp [Nat.add_assoc]

/-- Signature invariance over a sequence of user-level calls. -/
theorem applyOps_signature (ops : List Op) (c : Chain) :
    (applyOps c ops).signature = c.signature := by
  induction ops generalizing c with
  | nil => rfl
  | cons op ops ih =>
    rw [applyOps, ih, applyOp_signature]

/-! Claim C1. -/

/-- Claim C1 counterexample: the signature guard lives only in the live
try/except body, reached through bind_task — and there its detected mismatch
(step `x + 1` on the chain built from 10) does NOT propagate: the call
returns normally with the `AssertionError` stored into the `error` field.
Meanwhile build_path never even reaches the guard: it raises
`UnboundLocalError` (not the assertion) with `error` left `None`. -/
theorem C1_counterexample :
    returnsNormally (bind_taskE (Nomad.init (Val.int 10)) incStep printTask) = true ∧
    (bind_taskE (Nomad.init (Val.int 10)) incStep printTask).state.error =
      some corruptionErr ∧
    (build_pathE (Nomad.init (Val.int 10)) incStep).raised = some unboundLocalErr ∧
    (build_pathE (Nomad.init (Val.int 10)) incStep).raised ≠ some corruptionErr ∧
    (build_pathE (Nomad.init (Val.int 10)) incStep).state.error = none := by
  decide

/-- Claim C1 (amended): when the signature guard detects a mismatch — which
can only happen in bind_task, the one step-application call that reaches the
guard — the `AssertionError` raised by `check` is caught by the generic
`except Exception` clause and stored into `pendingError` exactly like an
ordinary step failure, and bind_task returns normally; build_path never
reaches the guard at all: it raises `UnboundLocalError` from its
`compile = compile` line before executing the step, leaving `pendingError`
untouched. -/
theorem C1_corruption_captured (c : Chain) (f t : Step) :
    (∀ v, f.run c.value = .ok v → sign v ≠ c.signature →
      bind_taskE c f t =
        { state := { c with value := v, error := some corruptionErr,
                               call_graph := c.call_graph ++ [t] }
        , raised := none }) ∧
    (∀ e, f.run c.value = .error e → e.cls ≠ PyExnClass.zeroDivisionError →
      bind_taskE c f t =
        { state := { c with error := some e, call_graph := c.call_graph ++ [t] }
        , raised := none }) ∧
    build_pathE c f =
      { state := { c with call_graph := c.call_graph ++ [f] }
      , raised := some unboundLocalErr } :=
  ⟨fun v hrun hsig => bind_taskE_of_sig_ne c f t v hrun hsig,
   fun e hrun hcls => bind_taskE_of_raise c f t e hrun hcls,
   build_pathE_raises c f⟩

/-- Claim C1 witness: the amended statement evaluated on the chain built
from 10 and the step that increments it. -/
theorem C1_witness :
    bind_taskE (Nomad.init (Val.int 10)) incStep printTask =
      { state := { Nomad.init (Val.int 10) with
                     value := Val.int 11, error := some corruptionErr,
                     call_graph := (Nomad.init (Val.int 10)).call_graph ++ [printTask] }
      , raised := none } :=
  (C1_corruption_captured (Nomad.init (Val.int 10)) incStep printTask).1
    (Val.int 11) rfl (by decide)

/-! Claim C2. -/

/-- Claim C2 counterexample: through bind_task (the only call in which a
step result can become the chain's current value), the step `x + 1` on the
chain built from 10 completes with its result 11 as the current value, yet
the stored signature (still the digest of 10) does not equal the digest of
11. -/
theorem C2_counterexample :
    (bind_task (Nomad.init (Val.int 10)) incStep printTask).value = Val.int 11 ∧
    (bind_task (Nomad.init (Val.int 10)) incStep printTask).signature ≠
      sign (bind_task (Nomad.init (Val.int 10)) incStep printTask).value := by
  decide

/-- Claim C2 (amended): a step result can become the chain's current value
only through bind_task (build_path raises `UnboundLocalError` before running
the step); when a bind_task step run succeeds its result becomes the current
value, but the stored signature field is never recomputed — it is unchanged
from before the call, so it keeps fingerprinting the construction value
rather than the new current value. -/
theorem C2_signature_stale (c : Chain) (f t : Step) (v : Val)
    (hrun : f.run c.value = .ok v) :
    (bind_task c f t).value = v ∧ (bind_task c f t).signature = c.signature := by
  by_cases hs : sign v = c.signature
  · unfold bind_task
    rw [bind_taskE_of_sig_eq c f t v hrun hs]
    exact ⟨rfl, rfl⟩
  · unfold bind_task
    rw [bind_taskE_of_sig_ne c f t v hrun hs]
    exact ⟨rfl, rfl⟩

/-- Claim C2 witness: the amended statement evaluated on the chain built
from 10 and the step that increments it. -/
theorem C2_witness :
    (bind_task (Nomad.init (Val.int 10)) incStep printTask).value = Val.int 11 ∧
    (bind_task (Nomad.init (Val.int 10)) incStep printTask).signature =
      (Nomad.init (Val.int 10)).signature :=
  C2_signature_stale (Nomad.init (Val.int 10)) incStep printTask (Val.int 11) rfl

/-! Claim C3. -/

/-- Claim C3 counterexample: after a bind_task call leaves the chain with a
pending error, a second automatic bind_task call still executes the supplied
step (the value changes from 11 to 16), and a failing second step overwrites
the existing pending error with a different one — contradicting the claimed
short-circuit for subsequent step applications. -/
theorem C3_counterexample :
    (bind_task (Nomad.init (Val.int 10)) incStep printTask).error ≠ none ∧
    (bind_task (bind_task (Nomad.init (Val.int 10)) incStep printTask)
        add5Step printTask).value ≠
      (bind_task (Nomad.init (Val.int 10)) incStep printTask).value ∧
    (bind_task (bind_task (Nomad.init (Val.int 10)) incStep printTask)
        typeErrStep printTask).error ≠
      (bind_task (Nomad.init (Val.int 10)) incStep printTask).error := by
  decide

/-- Claim C3 (amended): a set `pendingError` has no effect on later calls,
and there is no `Skipped` outcome anywhere.  build_path on an errored chain
skips the step only because it raises `UnboundLocalError` before its `try`
block — it never consults `pendingError`, appends the function, and leaves
`value`, `signature` and the existing error unchanged while the exception
propagates.  bind_task on an errored chain still executes the supplied step:
a successful run replaces the current value, and a failing run (other than
`ZeroDivisionError`) overwrites the pending error with the new exception. -/
theorem C3_no_short_circuit (c : Chain) (f t : Step) (e0 : PyErr)
    (hpe : c.error = some e0) :
    (build_pathE c f).state.error = some e0 ∧
    (build_pathE c f).raised = some unboundLocalErr ∧
    (∀ v, f.run c.value = .ok v → (bind_task c f t).value = v) ∧
    (∀ e, f.run c.value = .error e → e.cls ≠ PyExnClass.zeroDivisionError →
      (bind_task c f t).error = some e) := by
  refine ⟨hpe, rfl, ?_, ?_⟩
  · intro v hrun
    by_cases hs : sign v = c.signature
    · unfold bind_task
      rw [bind_taskE_of_sig_eq c f t v hrun hs]
    · unfold bind_task
      rw [bind_taskE_of_sig_ne c f t v hrun hs]
  · intro e hrun hcls
    unfold bind_task
    rw [bind_taskE_of_raise c f t e hrun hcls]

/-- Claim C3 witness: the amended statement evaluated on an errored chain
(the chain built from 10 after bind_task of `x + 1`), where the step `x + 5`
still runs and produces 16. -/
theorem C3_witness :
    (bind_task (bind_task (Nomad.init (Val.int 10)) incStep printTask)
        add5Step printTask).value = Val.int 16 :=
  (C3_no_short_circuit (bind_task (Nomad.init (Val.int 10)) incStep printTask)
      add5Step printTask corruptionErr (by decide)).2.2.1 (Val.int 16) rfl

/-! Claim C4. -/

/-- Claim C4 counterexample: through build_path (the `apply` of the claim),
the step `x / 0` on the chain built from 10 never even runs —
`UnboundLocalError` propagates first and the value stays 10; through
bind_task the `ZeroDivisionError` path is real, but the current value
becomes the un-awaited coroutine object returned by `retry`, not the
fallback's result 0 (with `pendingError` indeed left unset). -/
theorem C4_counterexample :
    (build_path (Nomad.init (Val.int 10)) div0Step).value = Val.int 10 ∧
    (build_pathE (Nomad.init (Val.int 10)) div0Step).raised = some unboundLocalErr ∧
    (bind_task (Nomad.init (Val.int 10)) div0Step printTask).value = Val.coroutine ∧
    (bind_task (Nomad.init (Val.int 10)) div0Step printTask).value ≠ Val.int 0 ∧
    (bind_task (Nomad.init (Val.int 10)) div0Step printTask).error = none := by
  decide

/-- Claim C4 (amended): a step failing with `ZeroDivisionError` never yields
the fallback's result 0.  Through build_path the step never runs at all
(`UnboundLocalError` from the compile line propagates first, with the chain
state unchanged beyond the append).  Through bind_task the
`ZeroDivisionError` branch is reached and `pendingError` is indeed not set,
but the configured fallback `x => 0` is never executed: `retry` calls the
async build_path via `>>` without awaiting it, so the chain's new current
value is the coroutine object itself, and only the task entry is recorded in
the call graph — there is no `Retried` record. -/
theorem C4_zero_division_coroutine (c : Chain) (f t : Step) (e : PyErr)
    (hrun : f.run c.value = .error e)
    (hcls : e.cls = PyExnClass.zeroDivisionError) :
    bind_taskE c f t =
      { state := { c with value := Val.coroutine,
                             call_graph := c.call_graph ++ [t] }
      , raised := none } ∧
    build_pathE c f =
      { state := { c with call_graph := c.call_graph ++ [f] }
      , raised := some unboundLocalErr } :=
  ⟨bind_taskE_of_zeroDiv c f t e hrun hcls, build_pathE_raises c f⟩

/-- Claim C4 witness: the amended statement evaluated on the chain built
from 10 and the step `x / 0`. -/
theorem C4_witness :
    bind_taskE (Nomad.init (Val.int 10)) div0Step printTask =
      { state := { Nomad.init (Val.int 10) with
                     value := Val.coroutine,
                     call_graph := (Nomad.init (Val.int 10)).call_graph ++ [printTask] }
      , raised := none } ∧
    build_pathE (Nomad.init (Val.int 10)) div0Step =
      { state := { Nomad.init (Val.int 10) with
                     call_graph := (Nomad.init (Val.int 10)).call_graph ++ [div0Step] }
      , raised := some unboundLocalErr } :=
  C4_zero_division_coroutine (Nomad.init (Val.int 10)) div0Step printTask
    { cls := .zeroDivisionError, msg := "division by zero" } rfl rfl

/-! Claim C5. -/

/-- Claim C5 counterexample: the bind_task call of `x + 1` on the chain
built from 10 newly sets `pendingError` (via the caught `AssertionError` of
the signature check), yet the chain's value afterwards is the half-applied
result 11, not the pre-call value 10. -/
theorem C5_counterexample :
    (Nomad.init (Val.int 10)).error = none ∧
    (bind_task (Nomad.init (Val.int 10)) incStep printTask).error =
      some corruptionErr ∧
    (bind_task (Nomad.init (Val.int 10)) incStep printTask).value ≠
      (Nomad.init (Val.int 10)).value := by
  decide

/-- Claim C5 (amended): `pendingError` can only be newly set by bind_task.
There, when the step itself raises (any exception other than
`ZeroDivisionError`), the pre-call value is retained and the exception
becomes the pending error; but when the failure is the post-step signature
check, the step's result has already been assigned and remains the current
value.  build_path never sets `pendingError` at all: it leaves both `value`
and `error` exactly as they were while `UnboundLocalError` propagates. -/
theorem C5_value_retained_on_raise (c : Chain) (f t : Step) (e : PyErr)
    (hrun : f.run c.value = .error e)
    (hcls : e.cls ≠ PyExnClass.zeroDivisionError) :
    (bind_task c f t).value = c.value ∧
    (bind_task c f t).error = some e ∧
    (build_path c f).value = c.value ∧
    (build_path c f).error = c.error := by
  unfold bind_task
  rw [bind_taskE_of_raise c f t e hrun hcls]
  exact ⟨rfl, rfl, rfl, rfl⟩

/-- Claim C5 witness: the amended statement evaluated on the chain built
from the string abc and a step that raises an unrecognised failure. -/
theorem C5_witness :
    (bind_task (Nomad.init (Val.str "abc")) boomStep printTask).value =
      Val.str "abc" ∧
    (bind_task (Nomad.init (Val.str "abc")) boomStep printTask).error =
      some { cls := .otherError, msg := "boom" } ∧
    (build_path (Nomad.init (Val.str "abc")) boomStep).value = Val.str "abc" ∧
    (build_path (Nomad.init (Val.str "abc")) boomStep).error =
      (Nomad.init (Val.str "abc")).error :=
  C5_value_retained_on_raise (Nomad.init (Val.str "abc")) boomStep printTask
    { cls := .otherError, msg := "boom" } rfl (by decide)

/-! Claim C6. -/

/-- Claim C6 counterexample: on the chain built from 5, with a primary step
and an alternative that would both fail and a final step returning 99,
alternate_bind propagates `UnboundLocalError` with the value still 5 — the
final step is never executed and its result 99 never becomes the chain
state; `pendingError` is unset afterwards only because nothing ever touches
it. -/
theorem C6_counterexample :
    (alternate_bindE (Nomad.init (Val.int 5)) boomStep typeErrStep const99Step).raised =
      some unboundLocalErr ∧
    (alternate_bind (Nomad.init (Val.int 5)) boomStep typeErrStep const99Step).value =
      Val.int 5 ∧
    (alternate_bind (Nomad.init (Val.int 5)) boomStep typeErrStep const99Step).value ≠
      Val.int 99 ∧
    (alternate_bind (Nomad.init (Val.int 5)) boomStep typeErrStep const99Step).error =
      none := by
  decide

/-- Claim C6 (amended): alternate_bind never runs its recovery:
`await self.build_path(func)` raises `UnboundLocalError` before the primary
step executes, and since `UnboundLocalError` is a `NameError` (not the
`TypeError` the except clause matches), the exception propagates out of
alternate_bind; `alternative` and `final` are never executed, and both
`value` and `pendingError` are left exactly as they were — so `pendingError`
ends up unset only when it already was. -/
theorem C6_alternate_bind_ignores_recovery (c : Chain) (f a fin : Step) :
    alternate_bindE c f a fin =
      { state := { c with call_graph := c.call_graph ++ [f] }
      , raised := some unboundLocalErr } ∧
    (alternate_bind c f a fin).value = c.value ∧
    (alternate_bind c f a fin).error = c.error := by
  refine ⟨alternate_bindE_raises c f a fin, ?_, ?_⟩ <;>
    · unfold alternate_bind
      rw [alternate_bindE_raises]

/-! Claim C7. -/

/-- Claim C7 counterexample: a single `__lshift__` call on a fresh chain
appends two call-graph entries (its own append plus the one inside
`build_path`), not one. -/
theorem C7_counterexample :
    (applyOps (Nomad.init (Val.int 10)) [Op.ls incStep]).call_graph.length = 2 ∧
    (applyOps (Nomad.init (Val.int 10)) [Op.ls incStep]).call_graph.length ≠ 1 := by
  decide

/-- Claim C7 (amended): over any sequence of calls on a fresh chain, the
call-graph length is the sum of the per-call contributions: `build_path`,
`bind_task` and `alternate_bind` each append exactly one entry, `__lshift__`
appends two, and a bare `retry` call appends none. -/
theorem C7_call_graph_length (v : Val) (ops : List Op) :
    (applyOps (Nomad.init v) ops).call_graph.length = (ops.map opCount).sum := by
  rw [applyOps_call_graph_length]
  simp [Nomad.init]

/-! Claim C8. -/

/-- Claim C8 (confirmed): in every state reachable by a sequence of calls on
a fresh chain — whether or not a pending error is present — `unwrap` returns
the triple of current value, pending error and call-graph snapshot, and no
exception propagates from it (its body contains no raising operation). -/
theorem C8_unwrap_total (v : Val) (ops : List Op) :
    unwrapE (applyOps (Nomad.init v) ops) =
      .ok ((applyOps (Nomad.init v) ops).value,
           (applyOps (Nomad.init v) ops).error,
           strCallGraph (applyOps (Nomad.init v) ops).call_graph) ∧
    unwrap (applyOps (Nomad.init v) ops) =
      ((applyOps (Nomad.init v) ops).value,
       (applyOps (Nomad.init v) ops).error,
       strCallGraph (applyOps (Nomad.init v) ops).call_graph) :=
  ⟨rfl, rfl⟩

/-! Claim C9. -/

/-- Claim C9 counterexample: the integer 10 and the string 10 are
structurally different values whose Python `str()` serialisations coincide,
so they share a signature. -/
theorem C9_counterexample :
    sign (Val.int 10) = sign (Val.str "10") ∧ Val.int 10 ≠ Val.str "10" := by
  decide

/-- Claim C9 (amended): `sign` is a deterministic total function of its
input, and two signatures are equal exactly when the `str()` serialisations
of the values are equal — structurally different values with the same
serialisation (such as the integer 10 and the string 10) therefore share a
signature. -/
theorem C9_sign_serialisation (v w : Val) :
    sign v = sign w ↔ pyStr v = pyStr w :=
  Iff.rfl

/-! Claim C10. -/

/-- Claim C10 (confirmed): the signature field is assigned only in
Nomad.__init__; no chain operation (`build_path`, `bind_task`, `__lshift__`,
`alternate_bind`, `retry`) ever reassigns it, so after any sequence of calls
it still equals the digest of the initial construction value. -/
theorem C10_signature_constant (v : Val) (ops : List Op) :
    (applyOps (Nomad.init v) ops).signature = sign v := by
  rw [applyOps_signature]
  rfl
